import Mathlib

/-!
Verification development for the useless-calculator repository
(src/app.py, src/telemetry.py): a shallow embedding of the telemetry
sink selector, the telemetry emission operations, the four arithmetic
operation proxies and the health aggregator, together with theorems
about them.
-/

namespace UselessCalc

/-! ## Telemetry sink selector (telemetry.py, TelemetryLogger.__init__) -/

/-- A telemetry backend handler that can be attached to a channel.
The azure_monitor mode configures a process-global exporter rather
than a handler object on these loggers, so a successful azure setup
only adds console handlers to channels that have none
(TelemetryLogger._attach_fallback_loggers); hence no azure constructor
is needed here. -/
inductive Handler
  | console
  | localFile
  | cloudwatch
deriving DecidableEq

/-- The handler lists of the three channel loggers created in
TelemetryLogger.__init__: logs_logger, metrics_logger, traces_logger
(cleared before configuration). -/
structure Channels where
  logs : List Handler
  metrics : List Handler
  traces : List Handler
deriving DecidableEq

/-- Whether construction of each cloud backend succeeds in the current
process environment (libraries present, credentials and connection
strings usable).  Console and local-file construction cannot fail in
this model. -/
structure BackendEnv where
  cwOk : Bool
  azOk : Bool
deriving DecidableEq

/-- TelemetryLogger._add_console_handler: append a console handler to
all three channels. -/
def addConsoleHandler (st : Channels) : Channels :=
  ⟨st.logs ++ [Handler.console], st.metrics ++ [Handler.console],
   st.traces ++ [Handler.console]⟩

/-- TelemetryLogger._add_local_handler: append a rotating-file handler
to all three channels. -/
def addLocalHandler (st : Channels) : Channels :=
  ⟨st.logs ++ [Handler.localFile], st.metrics ++ [Handler.localFile],
   st.traces ++ [Handler.localFile]⟩

/-- TelemetryLogger._add_cloudwatch_handler: attach a CloudWatch
handler to each channel; on construction failure the exception is
caught and the console fallback is attached instead.  Construction
failure is modelled as happening before any handler is attached, which
is where CloudWatchHandler.__init__ performs its client setup. -/
def addCloudwatchHandler (env : BackendEnv) (st : Channels) : Channels :=
  if env.cwOk then
    ⟨st.logs ++ [Handler.cloudwatch], st.metrics ++ [Handler.cloudwatch],
     st.traces ++ [Handler.cloudwatch]⟩
  else addConsoleHandler st

/-- TelemetryLogger._attach_fallback_loggers: add a console handler to
each channel logger that has no handlers.  (hasHandlers is modelled as
a check of the own handler list; root-logger propagation is not
modelled.) -/
def attachFallbackLoggers (st : Channels) : Channels :=
  ⟨if st.logs.isEmpty then st.logs ++ [Handler.console] else st.logs,
   if st.metrics.isEmpty then st.metrics ++ [Handler.console] else st.metrics,
   if st.traces.isEmpty then st.traces ++ [Handler.console] else st.traces⟩

/-- TelemetryLogger._add_azure_handler: on success, configure the
global exporter and attach fallback console handlers to empty
channels; on any failure, catch it and attach the console fallback. -/
def addAzureHandler (env : BackendEnv) (st : Channels) : Channels :=
  if env.azOk then attachFallbackLoggers st else addConsoleHandler st

/-- ASCII lowercasing of one character, as str.lower acts on the
ASCII mode identifiers. -/
def lowerChar (c : Char) : Char :=
  if c.toNat ≥ 65 ∧ c.toNat ≤ 90 then Char.ofNat (c.toNat + 32) else c

/-- The mode.lower() call in _configure_handler (ASCII). -/
def pyLower (s : String) : String := ⟨s.data.map lowerChar⟩

/-- TelemetryLogger._configure_handler: dispatch on the lowercased
mode identifier; unknown identifiers print a warning and are
skipped. -/
def configureHandler (env : BackendEnv) (st : Channels) (mode : String) : Channels :=
  let m := pyLower mode
  if m == "console" then addConsoleHandler st
  else if m == "local" then addLocalHandler st
  else if m == "aws_cloudwatch" then addCloudwatchHandler env st
  else if m == "azure_monitor" then addAzureHandler env st
  else st

/-- Mode-list parsing in TelemetryLogger.__init__:
telemetry_mode.split on a comma, each entry stripped. -/
def parseModes (s : String) : List String :=
  (s.splitOn ",").map String.trim

/-- Handler configuration in TelemetryLogger.__init__: start from
cleared handler lists, configure each mode in order, then, if the logs
channel ended up with no handlers, attach the console fallback. -/
def configure (env : BackendEnv) (modes : List String) : Channels :=
  let st := modes.foldl (configureHandler env) ⟨[], [], []⟩
  if st.logs.isEmpty then addConsoleHandler st else st

/-- A mode identifier recognized by _configure_handler. -/
def recognizedMode (m : String) : Bool :=
  (pyLower m == "console") || (pyLower m == "local") ||
    (pyLower m == "aws_cloudwatch") || (pyLower m == "azure_monitor")

/-- A recognized cloud backend whose construction fails in the given
environment. -/
def failsConstruction (env : BackendEnv) (m : String) : Bool :=
  (pyLower m == "aws_cloudwatch" && !env.cwOk) ||
    (pyLower m == "azure_monitor" && !env.azOk)

/-- Number of modes in the list whose backend fails to construct. -/
def countFailing (env : BackendEnv) (modes : List String) : Nat :=
  (modes.filter (failsConstruction env)).length

lemma replicate_append_one (k : Nat) (a : Handler) :
    List.replicate k a ++ [a] = List.replicate (k + 1) a := by
  induction k with
  | zero => rfl
  | succ n ih => simpa [List.replicate_succ] using ih

lemma addConsoleHandler_replicate (k : Nat) :
    addConsoleHandler
      ⟨List.replicate k Handler.console, List.replicate k Handler.console,
       List.replicate k Handler.console⟩ =
      ⟨List.replicate (k + 1) Handler.console, List.replicate (k + 1) Handler.console,
       List.replicate (k + 1) Handler.console⟩ := by
  simp [addConsoleHandler, replicate_append_one]

/-- Processing a list of modes that are each unrecognized or whose
backend fails to construct turns a state of k console handlers per
channel into one with k plus the number of failing modes. -/
lemma foldl_unrec_or_fail (env : BackendEnv) (modes : List String)
    (h : ∀ m ∈ modes, recognizedMode m = false ∨ failsConstruction env m = true) :
    ∀ k : Nat,
      modes.foldl (configureHandler env)
        ⟨List.replicate k Handler.console, List.replicate k Handler.console,
         List.replicate k Handler.console⟩ =
      ⟨List.replicate (k + countFailing env modes) Handler.console,
       List.replicate (k + countFailing env modes) Handler.console,
       List.replicate (k + countFailing env modes) Handler.console⟩ := by
  induction modes with
  | nil => intro k; simp [countFailing]
  | cons m ms ih =>
    intro k
    have hm := h m (by simp)
    have hms : ∀ x ∈ ms, recognizedMode x = false ∨ failsConstruction env x = true :=
      fun x hx => h x (by simp [hx])
    rcases hm with hun | hfail
    · -- unrecognized: skipped, and it is not counted as failing
      simp only [recognizedMode, Bool.or_eq_false_iff, beq_eq_false_iff_ne, ne_eq] at hun
      obtain ⟨⟨⟨hc, hl⟩, hcw⟩, haz⟩ := hun
      have hnf : failsConstruction env m = false := by
        simp [failsConstruction, hcw, haz]
      have hcount : countFailing env (m :: ms) = countFailing env ms := by
        simp [countFailing, List.filter_cons, hnf]
      have hstep :
          configureHandler env
            ⟨List.replicate k Handler.console, List.replicate k Handler.console,
             List.replicate k Handler.console⟩ m =
          ⟨List.replicate k Handler.console, List.replicate k Handler.console,
           List.replicate k Handler.console⟩ := by
        simp [configureHandler, hc, hl, hcw, haz]
      rw [List.foldl_cons, hstep, hcount]
      exact ih hms k
    · -- failing cloud backend: the console fallback is attached
      have hcount : countFailing env (m :: ms) = countFailing env ms + 1 := by
        simp [countFailing, List.filter_cons, hfail]
      have hstep :
          configureHandler env
            ⟨List.replicate k Handler.console, List.replicate k Handler.console,
             List.replicate k Handler.console⟩ m =
          ⟨List.replicate (k + 1) Handler.console, List.replicate (k + 1) Handler.console,
           List.replicate (k + 1) Handler.console⟩ := by
        simp only [failsConstruction, Bool.or_eq_true, Bool.and_eq_true,
          beq_iff_eq, Bool.not_eq_eq_eq_not, Bool.not_true] at hfail
        rcases hfail with ⟨hcw, hko⟩ | ⟨haz, hko⟩
        · simp [configureHandler, hcw, addCloudwatchHandler, hko, addConsoleHandler,
            replicate_append_one]
        · simp [configureHandler, haz, addAzureHandler, hko, addConsoleHandler,
            replicate_append_one]
      rw [List.foldl_cons, hstep]
      rw [ih hms (k + 1), hcount]
      congr 2 <;> omega

/-- C1 (amended).  For a mode list in which every entry is unrecognized
or a recognized backend that fails to construct, every channel holds
exactly n console handlers, where n is the number of failing backends,
or one console handler when no backend failed (final fallback).  In
particular an empty or unrecognized-only mode list yields exactly one
console backend on all three channels, and telemetry is never silently
discarded; but when several recognized backends fail, one console
fallback is attached per failure, not exactly one in total. -/
theorem claim_C1 (env : BackendEnv) (modes : List String)
    (h : ∀ m ∈ modes, recognizedMode m = false ∨ failsConstruction env m = true) :
    configure env modes =
      ⟨List.replicate (max (countFailing env modes) 1) Handler.console,
       List.replicate (max (countFailing env modes) 1) Handler.console,
       List.replicate (max (countFailing env modes) 1) Handler.console⟩ := by
  have hfold := foldl_unrec_or_fail env modes h 0
  rw [configure]
  rw [show (⟨[], [], []⟩ : Channels) =
    ⟨List.replicate 0 Handler.console, List.replicate 0 Handler.console,
     List.replicate 0 Handler.console⟩ from rfl]
  rw [hfold]
  rcases Nat.eq_zero_or_pos (countFailing env modes) with hz | hp
  · simp [hz, addConsoleHandler]
  · have hne : ¬(List.replicate (0 + countFailing env modes) Handler.console).isEmpty := by
      simp [List.isEmpty_iff, List.replicate_eq_nil_iff]
      omega
    simp only [hne, if_false, Bool.false_eq_true]
    have : max (countFailing env modes) 1 = countFailing env modes := by omega
    simp [this]

/-- C1 counterexample: with two recognized backends that both fail to
construct, the selector attaches two console handlers to every
channel, not exactly one. -/
theorem claim_C1_counterexample :
    configure ⟨false, false⟩ ["aws_cloudwatch", "azure_monitor"] =
      ⟨[Handler.console, Handler.console], [Handler.console, Handler.console],
       [Handler.console, Handler.console]⟩ ∧
    configure ⟨false, false⟩ ["aws_cloudwatch", "azure_monitor"] ≠
      ⟨[Handler.console], [Handler.console], [Handler.console]⟩ := by
  constructor
  · rfl
  · decide

/-- Witness for C1 at a concrete unrecognized-only mode list. -/
theorem claim_C1_witness :
    configure ⟨true, true⟩ ["bogus", "nonsense"] =
      ⟨[Handler.console], [Handler.console], [Handler.console]⟩ := by
  have h := claim_C1 ⟨true, true⟩ ["bogus", "nonsense"] (by decide)
  rw [h]; rfl

/-- C9.  A mode list with zero entries produces the same channel
configuration as any mode list containing only unrecognized
identifiers: in both cases the final fallback attaches exactly one
console handler to each channel. -/
theorem claim_C9 (env : BackendEnv) (modes : List String)
    (h : ∀ m ∈ modes, recognizedMode m = false) :
    configure env modes = configure env [] := by
  have h' : ∀ m ∈ modes, recognizedMode m = false ∨ failsConstruction env m = true :=
    fun m hm => Or.inl (h m hm)
  have hnf : ∀ m ∈ modes, failsConstruction env m = false := by
    intro m hm
    have hu := h m hm
    simp only [recognizedMode, Bool.or_eq_false_iff, beq_eq_false_iff_ne, ne_eq] at hu
    simp [failsConstruction, hu.1.2, hu.2]
  have hcount : countFailing env modes = 0 := by
    simp only [countFailing, List.length_eq_zero, List.filter_eq_nil_iff]
    intro m hm
    simp [hnf m hm]
  have hfold := foldl_unrec_or_fail env modes h' 0
  rw [configure]
  rw [show (⟨[], [], []⟩ : Channels) =
    ⟨List.replicate 0 Handler.console, List.replicate 0 Handler.console,
     List.replicate 0 Handler.console⟩ from rfl]
  rw [hfold, hcount]
  rfl

/-- Witness for C9: the mode list produced by an empty TELEMETRY_MODE
string (a single empty entry, unrecognized) configures the channels
exactly as a zero-entry list does. -/
theorem claim_C9_witness :
    configure ⟨true, true⟩ [""] = configure ⟨true, true⟩ [] := by
  have h := claim_C9 ⟨true, true⟩ [""] (by decide)
  exact h

/-! ## Operation proxies (app.py, the four POST handlers) -/

/-- The parameters in which the four otherwise identical POST handlers
of app.py differ.  checkValidation400 is the status_code == 400
branch, present only in perform_division. -/
structure OpConfig where
  opName : String
  endpoint : String
  serviceLabel : String
  checkValidation400 : Bool
  template : String
deriving DecidableEq

/-- One outbound requests.get call: endpoint, the two query
parameters, and the timeout argument in seconds. -/
structure OutCall where
  endpoint : String
  firstNumber : ℚ
  secondNumber : ℚ
  timeoutSeconds : Nat
deriving DecidableEq

/-- The JSON body of a downstream response as the handlers consume it:
a dict with optional result and detail entries, a bare scalar, or a
body on which response.json() raises. -/
inductive RespBody
  | obj (result : Option ℚ) (detail : Option String)
  | scalar (r : ℚ)
  | malformed
deriving DecidableEq

/-- The outcome of the single requests.get call. -/
inductive CallOutcome
  | timeout
  | requestExn (msg : String)
  | response (status : Nat) (body : RespBody)
deriving DecidableEq

/-- Downstream behaviour and the measured elapsed milliseconds for one
request. -/
structure World where
  outcome : CallOutcome
  elapsedMs : ℚ
deriving DecidableEq

/-- One mapping passed to telemetry.log_metrics by a handler: either
the success mapping (operation, success true, response_time_ms) or a
failure mapping (operation, error_type, response_time_ms). -/
inductive MetricsEvent
  | success (operation : String) (responseTimeMs : ℚ)
  | failure (operation : String) (errorType : String) (responseTimeMs : ℚ)
deriving DecidableEq

/-- One telemetry.log_trace record, emitted on success with the
operands and the result in its metadata. -/
structure TraceEvent where
  operation : String
  durationMs : ℚ
  firstNumber : ℚ
  secondNumber : ℚ
  result : ℚ
  serviceCalled : String
deriving DecidableEq

/-- One telemetry.log_error_with_trace record: its context carries the
operation, optionally a service label, and the elapsed time. -/
structure ErrorLogEvent where
  operation : String
  service : Option String
  durationMs : ℚ
deriving DecidableEq

/-- Everything one handler invocation renders and emits. -/
structure HandlerResult where
  calls : List OutCall
  showFlag : Nat
  answer : Option ℚ
  errorMsg : Option String
  metricsEvents : List MetricsEvent
  traceEvents : List TraceEvent
  errorLogEvents : List ErrorLogEvent
deriving DecidableEq

/-- The except requests.exceptions.Timeout branch: timeout message and
one metrics record tagged error_type timeout. -/
def timeoutResult (cfg : OpConfig) (call : OutCall) (w : World) : HandlerResult :=
  { calls := [call], showFlag := 0, answer := none,
    errorMsg := some "Service timeout. Please try again.",
    metricsEvents := [MetricsEvent.failure cfg.opName "timeout" w.elapsedMs],
    traceEvents := [], errorLogEvents := [] }

/-- The except requests.exceptions.RequestException branch: generic
unavailable message and one error log record; no metrics record. -/
def unavailableResult (cfg : OpConfig) (call : OutCall) (w : World) : HandlerResult :=
  { calls := [call], showFlag := 0, answer := none,
    errorMsg := some "Service unavailable. Please try again later.",
    metricsEvents := [], traceEvents := [],
    errorLogEvents := [⟨cfg.opName, some cfg.serviceLabel, w.elapsedMs⟩] }

/-- The except Exception branch: generic error message and one error
log record; no metrics record. -/
def genericFailure (cfg : OpConfig) (call : OutCall) (w : World) : HandlerResult :=
  { calls := [call], showFlag := 0, answer := none,
    errorMsg := some "An error occurred. Please try again.",
    metricsEvents := [], traceEvents := [],
    errorLogEvents := [⟨cfg.opName, none, w.elapsedMs⟩] }

/-- The success path: the answer is rendered and exactly one trace
record and one metrics record are emitted. -/
def successResult (cfg : OpConfig) (call : OutCall) (w : World) (f s r : ℚ) : HandlerResult :=
  { calls := [call], showFlag := 1, answer := some r, errorMsg := none,
    metricsEvents := [MetricsEvent.success cfg.opName w.elapsedMs],
    traceEvents := [⟨cfg.opName, w.elapsedMs, f, s, r, cfg.serviceLabel⟩],
    errorLogEvents := [] }

/-- The division-only status_code == 400 branch: the detail entry of
the body (default "Invalid input") is rendered and one metrics record
tagged error_type validation_error is emitted. -/
def validationResult (cfg : OpConfig) (call : OutCall) (w : World) (detail : Option String) :
    HandlerResult :=
  { calls := [call], showFlag := 0, answer := none,
    errorMsg := some (detail.getD "Invalid input"),
    metricsEvents := [MetricsEvent.failure cfg.opName "validation_error" w.elapsedMs],
    traceEvents := [], errorLogEvents := [] }

/-- Processing of a received HTTP response: the division-only 400
branch first (a .get on a non-dict body or a json() failure there is
an unanticipated exception), then raise_for_status (an HTTPError is a
RequestException), then result extraction, where a missing result key
or an unparseable body is an unanticipated exception. -/
def handleResponse (cfg : OpConfig) (call : OutCall) (w : World) (f s : ℚ)
    (status : Nat) (body : RespBody) : HandlerResult :=
  if cfg.checkValidation400 ∧ status = 400 then
    match body with
    | RespBody.obj _ detail => validationResult cfg call w detail
    | RespBody.scalar _ => genericFailure cfg call w
    | RespBody.malformed => genericFailure cfg call w
  else if 400 ≤ status ∧ status < 600 then
    unavailableResult cfg call w
  else
    match body with
    | RespBody.obj (some r) _ => successResult cfg call w f s r
    | RespBody.obj none _ => genericFailure cfg call w
    | RespBody.scalar r => successResult cfg call w f s r
    | RespBody.malformed => genericFailure cfg call w

/-- The common body of perform_addition, perform_division,
perform_multiplication and perform_subtraction in app.py: a None check
on either operand short-circuits with no outbound call; otherwise one
requests.get with both operands and timeout 5 is made and its outcome
classified. -/
def performOp (cfg : OpConfig) (firstNumber secondNumber : Option ℚ) (w : World) :
    HandlerResult :=
  match firstNumber, secondNumber with
  | some f, some s =>
    let call : OutCall := ⟨cfg.endpoint, f, s, 5⟩
    match w.outcome with
    | CallOutcome.timeout => timeoutResult cfg call w
    | CallOutcome.requestExn _ => unavailableResult cfg call w
    | CallOutcome.response status body => handleResponse cfg call w f s status body
  | _, _ =>
    { calls := [], showFlag := 0, answer := none,
      errorMsg := some "Please enter both numbers",
      metricsEvents := [], traceEvents := [], errorLogEvents := [] }

/-- The four configured endpoint URLs (environment variables). -/
structure ServiceEndpoints where
  addUrl : String
  divideUrl : String
  multiUrl : String
  subUrl : String
deriving DecidableEq

def addConfig (eps : ServiceEndpoints) : OpConfig :=
  { opName := "calculator_addition", endpoint := eps.addUrl,
    serviceLabel := "addition-service", checkValidation400 := false,
    template := "add.html" }

def divideConfig (eps : ServiceEndpoints) : OpConfig :=
  { opName := "calculator_division", endpoint := eps.divideUrl,
    serviceLabel := "division-service", checkValidation400 := true,
    template := "divide.html" }

def multiConfig (eps : ServiceEndpoints) : OpConfig :=
  { opName := "calculator_multiplication", endpoint := eps.multiUrl,
    serviceLabel := "multiplication-service", checkValidation400 := false,
    template := "multi.html" }

def subConfig (eps : ServiceEndpoints) : OpConfig :=
  { opName := "calculator_subtraction", endpoint := eps.subUrl,
    serviceLabel := "subtraction-service", checkValidation400 := false,
    template := "sub.html" }

/-- The four POST handlers of app.py as instances of performOp. -/
def configs4 (eps : ServiceEndpoints) : List OpConfig :=
  [addConfig eps, divideConfig eps, multiConfig eps, subConfig eps]

def perform_addition (eps : ServiceEndpoints) (f s : Option ℚ) (w : World) : HandlerResult :=
  performOp (addConfig eps) f s w

def perform_division (eps : ServiceEndpoints) (f s : Option ℚ) (w : World) : HandlerResult :=
  performOp (divideConfig eps) f s w

def perform_multiplication (eps : ServiceEndpoints) (f s : Option ℚ) (w : World) :
    HandlerResult :=
  performOp (multiConfig eps) f s w

def perform_subtraction (eps : ServiceEndpoints) (f s : Option ℚ) (w : World) : HandlerResult :=
  performOp (subConfig eps) f s w

/-- A raw operand form field of a POST request. -/
inductive RawField
  | missing
  | unparseable (s : String)
  | numVal (q : ℚ)
deriving DecidableEq

/-- Modelled from the spec: the form-decoding boundary in front of the
handlers is FastAPI machinery, not part of this repository; per the
spec, an operand field that is absent or not parseable as a number
reaches the handler as an absent value (None), and a parsed number is
passed through. -/
def decodeField : RawField → Option ℚ
  | RawField.missing => none
  | RawField.unparseable _ => none
  | RawField.numVal q => some q

lemma handleResponse_calls (cfg : OpConfig) (call : OutCall) (w : World) (f s : ℚ)
    (status : Nat) (body : RespBody) :
    (handleResponse cfg call w f s status body).calls = [call] := by
  unfold handleResponse
  split
  · cases body <;> simp [validationResult, genericFailure]
  · split
    · simp [unavailableResult]
    · cases body with
      | obj r d => cases r <;> simp [successResult, genericFailure]
      | scalar r => simp [successResult]
      | malformed => simp [genericFailure]

/-- With both operands present, the handler makes exactly the one
outbound call with the operand values and timeout 5. -/
lemma performOp_calls_some (cfg : OpConfig) (f s : ℚ) (w : World) :
    (performOp cfg (some f) (some s) w).calls = [⟨cfg.endpoint, f, s, 5⟩] := by
  obtain ⟨o, t⟩ := w
  cases o with
  | timeout => rfl
  | requestExn m => rfl
  | response status body =>
    exact handleResponse_calls cfg ⟨cfg.endpoint, f, s, 5⟩
      ⟨CallOutcome.response status body, t⟩ f s status body

lemma performOp_response (cfg : OpConfig) (f s : ℚ) (status : Nat) (body : RespBody)
    (t : ℚ) :
    performOp cfg (some f) (some s) ⟨CallOutcome.response status body, t⟩ =
      handleResponse cfg ⟨cfg.endpoint, f, s, 5⟩ ⟨CallOutcome.response status body, t⟩
        f s status body := rfl

/-- Below 400 no branch of the 400 check or raise_for_status fires:
the body is parsed for the result. -/
lemma handleResponse_lt400 (cfg : OpConfig) (call : OutCall) (w : World) (f s : ℚ)
    (status : Nat) (body : RespBody) (h : status < 400) :
    handleResponse cfg call w f s status body =
      match body with
      | RespBody.obj (some r) _ => successResult cfg call w f s r
      | RespBody.obj none _ => genericFailure cfg call w
      | RespBody.scalar r => successResult cfg call w f s r
      | RespBody.malformed => genericFailure cfg call w := by
  unfold handleResponse
  rw [if_neg, if_neg]
  · rintro ⟨h1, h2⟩
    omega
  · rintro ⟨h1, h2⟩
    omega

/-- C2 (amended).  Only the division handler inspects HTTP 400: for
division, a 400 response whose dict body carries a detail entry
renders that detail verbatim; for addition, multiplication and
subtraction the same response is turned into an HTTPError by
raise_for_status and renders the generic service-unavailable
message. -/
theorem claim_C2 (eps : ServiceEndpoints) (f s t : ℚ) (r? : Option ℚ) (d : String) :
    (perform_division eps (some f) (some s)
        ⟨CallOutcome.response 400 (RespBody.obj r? (some d)), t⟩).errorMsg = some d ∧
      ∀ cfg ∈ [addConfig eps, multiConfig eps, subConfig eps],
        (performOp cfg (some f) (some s)
            ⟨CallOutcome.response 400 (RespBody.obj r? (some d)), t⟩).errorMsg =
          some "Service unavailable. Please try again later." := by
  constructor
  · rfl
  · intro cfg hcfg
    simp only [List.mem_cons, List.not_mem_nil, or_false] at hcfg
    rcases hcfg with rfl | rfl | rfl <;> rfl

/-- C2 counterexample: the addition handler given a 400 response whose
body carries a detail message renders the generic unavailable message,
not the downstream detail. -/
theorem claim_C2_counterexample :
    (performOp (addConfig ⟨"a", "d", "m", "s"⟩) (some 1) (some 0)
        ⟨CallOutcome.response 400 (RespBody.obj none (some "Cannot divide by zero")),
         1⟩).errorMsg = some "Service unavailable. Please try again later." ∧
      (performOp (addConfig ⟨"a", "d", "m", "s"⟩) (some 1) (some 0)
        ⟨CallOutcome.response 400 (RespBody.obj none (some "Cannot divide by zero")),
         1⟩).errorMsg ≠ some "Cannot divide by zero" := by
  exact ⟨rfl, by decide⟩

/-- Witness for C2 at the divide-by-zero input of the test suite. -/
theorem claim_C2_witness :
    (perform_division ⟨"a", "d", "m", "s"⟩ (some 10) (some 0)
        ⟨CallOutcome.response 400 (RespBody.obj none (some "Cannot divide by zero")),
         2⟩).errorMsg = some "Cannot divide by zero" :=
  (claim_C2 ⟨"a", "d", "m", "s"⟩ 10 0 2 none "Cannot divide by zero").1

/-- C3 (amended).  For each of the four operations: TimedOut emits
exactly one metrics record and nothing else; Unavailable emits zero
metrics records and exactly one error log record; Succeeded emits
exactly one metrics record and exactly one trace record carrying the
operands and the result; Failed (unanticipated, e.g. a malformed
success body) emits zero metrics records and one error log record; and
the downstream-validation outcome (division, 400 with detail) emits
exactly one metrics record and nothing else. -/
theorem claim_C3 (eps : ServiceEndpoints) (cfg : OpConfig) (_hc : cfg ∈ configs4 eps)
    (f s t : ℚ) :
    ((performOp cfg (some f) (some s) ⟨CallOutcome.timeout, t⟩).metricsEvents =
        [MetricsEvent.failure cfg.opName "timeout" t] ∧
      (performOp cfg (some f) (some s) ⟨CallOutcome.timeout, t⟩).traceEvents = [] ∧
      (performOp cfg (some f) (some s) ⟨CallOutcome.timeout, t⟩).errorLogEvents = []) ∧
    (∀ m : String,
      (performOp cfg (some f) (some s) ⟨CallOutcome.requestExn m, t⟩).metricsEvents = [] ∧
      (performOp cfg (some f) (some s) ⟨CallOutcome.requestExn m, t⟩).errorLogEvents =
        [⟨cfg.opName, some cfg.serviceLabel, t⟩]) ∧
    (∀ (status : Nat) (r : ℚ) (d : Option String), status < 400 →
      (performOp cfg (some f) (some s)
          ⟨CallOutcome.response status (RespBody.obj (some r) d), t⟩).metricsEvents =
        [MetricsEvent.success cfg.opName t] ∧
      (performOp cfg (some f) (some s)
          ⟨CallOutcome.response status (RespBody.obj (some r) d), t⟩).traceEvents =
        [⟨cfg.opName, t, f, s, r, cfg.serviceLabel⟩]) ∧
    (∀ status : Nat, status < 400 →
      (performOp cfg (some f) (some s)
          ⟨CallOutcome.response status RespBody.malformed, t⟩).metricsEvents = [] ∧
      (performOp cfg (some f) (some s)
          ⟨CallOutcome.response status RespBody.malformed, t⟩).errorLogEvents =
        [⟨cfg.opName, none, t⟩]) ∧
    (∀ (r? : Option ℚ) (d : String),
      (performOp (divideConfig eps) (some f) (some s)
          ⟨CallOutcome.response 400 (RespBody.obj r? (some d)), t⟩).metricsEvents =
        [MetricsEvent.failure "calculator_division" "validation_error" t] ∧
      (performOp (divideConfig eps) (some f) (some s)
          ⟨CallOutcome.response 400 (RespBody.obj r? (some d)), t⟩).traceEvents = [] ∧
      (performOp (divideConfig eps) (some f) (some s)
          ⟨CallOutcome.response 400 (RespBody.obj r? (some d)), t⟩).errorLogEvents = []) := by
  refine ⟨⟨rfl, rfl, rfl⟩, fun m => ⟨rfl, rfl⟩, ?_, ?_, fun r? d => ⟨rfl, rfl, rfl⟩⟩
  · intro status r d hlt
    rw [performOp_response, handleResponse_lt400 _ _ _ _ _ _ _ hlt]
    exact ⟨rfl, rfl⟩
  · intro status hlt
    rw [performOp_response, handleResponse_lt400 _ _ _ _ _ _ _ hlt]
    exact ⟨rfl, rfl⟩

/-- C3 counterexample: on a request-level failure (Unavailable) the
addition handler emits zero metrics records, not exactly one; it emits
one error log record instead. -/
theorem claim_C3_counterexample :
    (performOp (addConfig ⟨"a", "d", "m", "s"⟩) (some 1) (some 2)
        ⟨CallOutcome.requestExn "connection refused", 3⟩).metricsEvents = [] ∧
      (performOp (addConfig ⟨"a", "d", "m", "s"⟩) (some 1) (some 2)
        ⟨CallOutcome.requestExn "connection refused", 3⟩).errorLogEvents.length = 1 :=
  ⟨rfl, rfl⟩

/-- Witness for C3 at a concrete timeout. -/
theorem claim_C3_witness :
    (performOp (addConfig ⟨"a", "d", "m", "s"⟩) (some 1) (some 2)
        ⟨CallOutcome.timeout, 3⟩).metricsEvents =
      [MetricsEvent.failure (addConfig ⟨"a", "d", "m", "s"⟩).opName "timeout" 3] :=
  (claim_C3 ⟨"a", "d", "m", "s"⟩ (addConfig ⟨"a", "d", "m", "s"⟩)
    (List.mem_cons_self _ _) 1 2 3).1.1

/-- C4.  For each of the four operations, a request in which either
operand is absent or not parseable as a number renders the outcome
message Please enter both numbers and makes zero outbound calls. -/
theorem claim_C4 (eps : ServiceEndpoints) (cfg : OpConfig) (_hc : cfg ∈ configs4 eps)
    (rf rs : RawField) (w : World)
    (h : rf = RawField.missing ∨ (∃ u, rf = RawField.unparseable u) ∨
         rs = RawField.missing ∨ ∃ u, rs = RawField.unparseable u) :
    (performOp cfg (decodeField rf) (decodeField rs) w).errorMsg =
        some "Please enter both numbers" ∧
      (performOp cfg (decodeField rf) (decodeField rs) w).calls = [] := by
  have hnone : decodeField rf = none ∨ decodeField rs = none := by
    rcases h with h | ⟨u, h⟩ | h | ⟨u, h⟩ <;> subst h <;> simp [decodeField]
  rcases hnone with h' | h'
  · cases hs : decodeField rs <;> rw [h'] <;> exact ⟨rfl, rfl⟩
  · cases hf : decodeField rf <;> rw [h'] <;> exact ⟨rfl, rfl⟩

/-- Witness for C4: an unparseable first operand. -/
theorem claim_C4_witness :
    (performOp (addConfig ⟨"a", "d", "m", "s"⟩) (decodeField (RawField.unparseable "abc"))
        (decodeField (RawField.numVal 3)) ⟨CallOutcome.timeout, 0⟩).errorMsg =
        some "Please enter both numbers" ∧
      (performOp (addConfig ⟨"a", "d", "m", "s"⟩) (decodeField (RawField.unparseable "abc"))
        (decodeField (RawField.numVal 3)) ⟨CallOutcome.timeout, 0⟩).calls = [] :=
  claim_C4 ⟨"a", "d", "m", "s"⟩ (addConfig ⟨"a", "d", "m", "s"⟩)
    (List.mem_cons_self _ _) (RawField.unparseable "abc") (RawField.numVal 3)
    ⟨CallOutcome.timeout, 0⟩ (Or.inr (Or.inl ⟨"abc", rfl⟩))

/-- C6.  For each of the four operations, every request makes at most
one outbound call, and every call made carries the fixed 5 second
timeout. -/
theorem claim_C6 (eps : ServiceEndpoints) (cfg : OpConfig) (_hc : cfg ∈ configs4 eps)
    (f s : Option ℚ) (w : World) :
    (performOp cfg f s w).calls.length ≤ 1 ∧
      ∀ c ∈ (performOp cfg f s w).calls, c.timeoutSeconds = 5 := by
  cases f with
  | none => cases s <;> exact ⟨by simp [performOp], by simp [performOp]⟩
  | some a =>
    cases s with
    | none => exact ⟨by simp [performOp], by simp [performOp]⟩
    | some b =>
      rw [performOp_calls_some cfg a b w]
      exact ⟨by simp, by simp⟩

/-- Witness for C6 at a concrete request. -/
theorem claim_C6_witness :
    (performOp (addConfig ⟨"a", "d", "m", "s"⟩) (some 1) (some 2)
        ⟨CallOutcome.timeout, 0⟩).calls.length ≤ 1 ∧
      ∀ c ∈ (performOp (addConfig ⟨"a", "d", "m", "s"⟩) (some 1) (some 2)
        ⟨CallOutcome.timeout, 0⟩).calls, c.timeoutSeconds = 5 :=
  claim_C6 ⟨"a", "d", "m", "s"⟩ (addConfig ⟨"a", "d", "m", "s"⟩)
    (List.mem_cons_self _ _) (some 1) (some 2) ⟨CallOutcome.timeout, 0⟩

/-- C7.  For each of the four operations, a downstream timeout renders
the generic service-timeout message and emits one metrics record
tagged error_type timeout carrying the elapsed time. -/
theorem claim_C7 (eps : ServiceEndpoints) (cfg : OpConfig) (_hc : cfg ∈ configs4 eps)
    (f s t : ℚ) :
    (performOp cfg (some f) (some s) ⟨CallOutcome.timeout, t⟩).errorMsg =
        some "Service timeout. Please try again." ∧
      (performOp cfg (some f) (some s) ⟨CallOutcome.timeout, t⟩).metricsEvents =
        [MetricsEvent.failure cfg.opName "timeout" t] := by
  exact ⟨rfl, rfl⟩

/-- Witness for C7 at a concrete timeout. -/
theorem claim_C7_witness :
    (performOp (multiConfig ⟨"a", "d", "m", "s"⟩) (some 5) (some 3)
        ⟨CallOutcome.timeout, 7⟩).errorMsg = some "Service timeout. Please try again." ∧
      (performOp (multiConfig ⟨"a", "d", "m", "s"⟩) (some 5) (some 3)
        ⟨CallOutcome.timeout, 7⟩).metricsEvents =
        [MetricsEvent.failure (multiConfig ⟨"a", "d", "m", "s"⟩).opName "timeout" 7] :=
  claim_C7 ⟨"a", "d", "m", "s"⟩ (multiConfig ⟨"a", "d", "m", "s"⟩)
    (by simp [configs4]) 5 3 7

/-- C8.  For each of the four operations, a present operand equal to
zero is a valid operand: the missing-input shortcut is not taken and
the one outbound call is made with the zero value. -/
theorem claim_C8 (eps : ServiceEndpoints) (cfg : OpConfig) (_hc : cfg ∈ configs4 eps)
    (x : ℚ) (w : World) :
    (performOp cfg (some 0) (some x) w).calls = [⟨cfg.endpoint, 0, x, 5⟩] ∧
      (performOp cfg (some x) (some 0) w).calls = [⟨cfg.endpoint, x, 0, 5⟩] := by
  exact ⟨performOp_calls_some cfg 0 x w, performOp_calls_some cfg x 0 w⟩

/-- Witness for C8: a zero second operand still reaches the downstream
call (the divide-by-zero test input). -/
theorem claim_C8_witness :
    (performOp (divideConfig ⟨"a", "d", "m", "s"⟩) (some 0) (some 10)
        ⟨CallOutcome.timeout, 0⟩).calls =
        [⟨(divideConfig ⟨"a", "d", "m", "s"⟩).endpoint, 0, 10, 5⟩] ∧
      (performOp (divideConfig ⟨"a", "d", "m", "s"⟩) (some 10) (some 0)
        ⟨CallOutcome.timeout, 0⟩).calls =
        [⟨(divideConfig ⟨"a", "d", "m", "s"⟩).endpoint, 10, 0, 5⟩] :=
  claim_C8 ⟨"a", "d", "m", "s"⟩ (divideConfig ⟨"a", "d", "m", "s"⟩)
    (by simp [configs4]) 10 ⟨CallOutcome.timeout, 0⟩

/-! ## Telemetry emission (telemetry.py, log_metrics / log_trace /
log_error_with_trace) -/

/-- A Python value as passed in telemetry mappings (Dict of str to
Any); nonJson stands for a value json.dumps cannot serialize. -/
inductive PyVal
  | str (s : String)
  | num (q : ℚ)
  | boolVal (b : Bool)
  | nonJson
deriving DecidableEq

def PyVal.serializable : PyVal → Bool
  | PyVal.nonJson => false
  | _ => true

def PyVal.render : PyVal → String
  | PyVal.str s => s
  | PyVal.num _ => "<number>"
  | PyVal.boolVal b => if b then "true" else "false"
  | PyVal.nonJson => "<unserializable>"

def renderPairs (m : List (String × PyVal)) : String :=
  String.intercalate ", " (m.map (fun p => p.1 ++ ": " ++ p.2.render))

/-- json.dumps over a flat mapping: raises TypeError (here: none) when
any value is not serializable; the rendered text stands in for the
JSON text. -/
def jsonDumps (m : List (String × PyVal)) : Option String :=
  if m.all (fun p => p.2.serializable) then some (renderPairs m) else none

/-- One attached handler as emission sees it: whether its write to the
backend fails. -/
structure WriteHandler where
  writeFails : Bool
deriving DecidableEq

/-- The raw emit call of one handler, which may raise in Python. -/
def emitRaw (h : WriteHandler) (msg : String) : Except String String :=
  if h.writeFails then Except.error "backend write failure" else Except.ok msg

/-- What reaches the sink for one handler: logging.Handler.handle (via
handleError) and CloudWatchHandler.emit catch the write failure and
divert a diagnostic to stderr instead of re-raising. -/
inductive Emitted
  | written (msg : String)
  | diagnostic (err : String)
deriving DecidableEq

def handleRecord (h : WriteHandler) (msg : String) : Emitted :=
  match emitRaw h msg with
  | Except.ok m => Emitted.written m
  | Except.error e => Emitted.diagnostic e

/-- logging.Logger.info / .error over the attached handlers: total,
because each handler catches its own write failure. -/
def loggerEmit (hs : List WriteHandler) (msg : String) : List Emitted :=
  hs.map (fun h => handleRecord h msg)

/-- The emission-relevant state of a TelemetryLogger: identity fields
and the handlers attached to the three channels. -/
structure TelemetryState where
  envName : String
  appName : String
  serviceName : String
  logsHandlers : List WriteHandler
  metricsHandlers : List WriteHandler
  tracesHandlers : List WriteHandler
deriving DecidableEq

/-- A Python-level error escaping an emission call. -/
inductive PyError
  | typeError
deriving DecidableEq

/-- TelemetryLogger.log_metrics: appends the identity fields and a
timestamp to the mapping, serializes it with json.dumps, and writes
one record to the metrics channel.  json.dumps is the only raising
step; handler write failures are caught inside loggerEmit. -/
def log_metrics (st : TelemetryState) (now : String) (metrics : List (String × PyVal)) :
    Except PyError (List Emitted) :=
  let enhanced := metrics ++
    [("env_name", PyVal.str st.envName), ("app_name", PyVal.str st.appName),
     ("service_name", PyVal.str st.serviceName), ("timestamp", PyVal.str now)]
  match jsonDumps enhanced with
  | none => Except.error PyError.typeError
  | some s => Except.ok (loggerEmit st.metricsHandlers ("METRICS: " ++ s))

/-- TelemetryLogger.log_trace: builds the trace record (the metadata
mapping is flattened here, which preserves which values json.dumps
must serialize) and writes it to the traces channel. -/
def log_trace (st : TelemetryState) (now : String) (traceId spanId operation : String)
    (durationMs : ℚ) (metadata : List (String × PyVal)) : Except PyError (List Emitted) :=
  let traceData :=
    [("trace_id", PyVal.str traceId), ("span_id", PyVal.str spanId),
     ("operation", PyVal.str operation), ("duration_ms", PyVal.num durationMs),
     ("service", PyVal.str st.serviceName), ("env_name", PyVal.str st.envName),
     ("app_name", PyVal.str st.appName), ("timestamp", PyVal.str now)] ++ metadata
  match jsonDumps traceData with
  | none => Except.error PyError.typeError
  | some s => Except.ok (loggerEmit st.tracesHandlers ("TRACE: " ++ s))

/-- TelemetryLogger.log_error_with_trace: builds the error record from
the error kind, message and traceback text plus the context mapping
(flattened here) and writes it to the logs channel. -/
def log_error_with_trace (st : TelemetryState) (now : String)
    (errorType errorMessage tracebackText : String) (context : List (String × PyVal)) :
    Except PyError (List Emitted) :=
  let errorData :=
    [("error_type", PyVal.str errorType), ("error_message", PyVal.str errorMessage),
     ("traceback", PyVal.str tracebackText), ("service", PyVal.str st.serviceName),
     ("env_name", PyVal.str st.envName), ("app_name", PyVal.str st.appName),
     ("timestamp", PyVal.str now)] ++ context
  match jsonDumps errorData with
  | none => Except.error PyError.typeError
  | some s => Except.ok (loggerEmit st.logsHandlers ("ERROR_TRACE: " ++ s))

/-- C5 (amended).  The emission operations never raise on account of
backend state: for every mapping, metadata and context whose values
are JSON-serializable, log_metrics, log_trace and log_error_with_trace
return normally whatever the attached handlers do, every backend write
failure being caught and dropped.  (A non-serializable value raises
TypeError from json.dumps before any backend write; see the
counterexample.) -/
theorem claim_C5 (st : TelemetryState) (now : String)
    (metrics metadata context : List (String × PyVal))
    (traceId spanId operation errorType errorMessage tracebackText : String)
    (durationMs : ℚ)
    (hm : metrics.all (fun p => p.2.serializable) = true)
    (hmd : metadata.all (fun p => p.2.serializable) = true)
    (hcx : context.all (fun p => p.2.serializable) = true) :
    (∃ out, log_metrics st now metrics = Except.ok out) ∧
      (∃ out, log_trace st now traceId spanId operation durationMs metadata =
        Except.ok out) ∧
      ∃ out, log_error_with_trace st now errorType errorMessage tracebackText context =
        Except.ok out := by
  refine ⟨?_, ?_, ?_⟩
  · rw [log_metrics]
    rw [show jsonDumps (metrics ++
        [("env_name", PyVal.str st.envName), ("app_name", PyVal.str st.appName),
         ("service_name", PyVal.str st.serviceName), ("timestamp", PyVal.str now)]) =
      some (renderPairs (metrics ++
        [("env_name", PyVal.str st.envName), ("app_name", PyVal.str st.appName),
         ("service_name", PyVal.str st.serviceName), ("timestamp", PyVal.str now)]))
      from by
        rw [jsonDumps, if_pos]
        rw [List.all_append, hm]
        rfl]
    exact ⟨_, rfl⟩
  · rw [log_trace]
    rw [show jsonDumps
        ([("trace_id", PyVal.str traceId), ("span_id", PyVal.str spanId),
          ("operation", PyVal.str operation), ("duration_ms", PyVal.num durationMs),
          ("service", PyVal.str st.serviceName), ("env_name", PyVal.str st.envName),
          ("app_name", PyVal.str st.appName), ("timestamp", PyVal.str now)] ++ metadata) =
      some (renderPairs
        ([("trace_id", PyVal.str traceId), ("span_id", PyVal.str spanId),
          ("operation", PyVal.str operation), ("duration_ms", PyVal.num durationMs),
          ("service", PyVal.str st.serviceName), ("env_name", PyVal.str st.envName),
          ("app_name", PyVal.str st.appName), ("timestamp", PyVal.str now)] ++ metadata))
      from by
        rw [jsonDumps, if_pos]
        rw [List.all_append, hmd]
        rfl]
    exact ⟨_, rfl⟩
  · rw [log_error_with_trace]
    rw [show jsonDumps
        ([("error_type", PyVal.str errorType), ("error_message", PyVal.str errorMessage),
          ("traceback", PyVal.str tracebackText), ("service", PyVal.str st.serviceName),
          ("env_name", PyVal.str st.envName), ("app_name", PyVal.str st.appName),
          ("timestamp", PyVal.str now)] ++ context) =
      some (renderPairs
        ([("error_type", PyVal.str errorType), ("error_message", PyVal.str errorMessage),
          ("traceback", PyVal.str tracebackText), ("service", PyVal.str st.serviceName),
          ("env_name", PyVal.str st.envName), ("app_name", PyVal.str st.appName),
          ("timestamp", PyVal.str now)] ++ context))
      from by
        rw [jsonDumps, if_pos]
        rw [List.all_append, hcx]
        rfl]
    exact ⟨_, rfl⟩

/-- C5 counterexample: a mapping containing a value json.dumps cannot
serialize makes log_metrics raise TypeError, so the emission
operations do not satisfy never-raises for every input mapping. -/
theorem claim_C5_counterexample :
    log_metrics ⟨"development", "useless-calculator", "useless-calculator", [], [⟨false⟩], []⟩
        "2026-10-12T00:00:00" [("operation", PyVal.nonJson)] =
      Except.error PyError.typeError := rfl

/-- Witness for C5: with a failing backend handler attached to every
channel, all three emission operations still return normally. -/
theorem claim_C5_witness :
    (∃ out, log_metrics
        ⟨"development", "useless-calculator", "svc", [⟨true⟩], [⟨true⟩], [⟨true⟩]⟩
        "t0" [("success", PyVal.boolVal true)] = Except.ok out) ∧
      (∃ out, log_trace
        ⟨"development", "useless-calculator", "svc", [⟨true⟩], [⟨true⟩], [⟨true⟩]⟩
        "t0" "tid" "sid" "calculator_addition" 3 [("result", PyVal.num 8)] =
        Except.ok out) ∧
      ∃ out, log_error_with_trace
        ⟨"development", "useless-calculator", "svc", [⟨true⟩], [⟨true⟩], [⟨true⟩]⟩
        "t0" "Timeout" "timed out" "tb" [("operation", PyVal.str "calculator_addition")] =
        Except.ok out :=
  claim_C5 ⟨"development", "useless-calculator", "svc", [⟨true⟩], [⟨true⟩], [⟨true⟩]⟩
    "t0" [("success", PyVal.boolVal true)] [("result", PyVal.num 8)]
    [("operation", PyVal.str "calculator_addition")]
    "tid" "sid" "calculator_addition" "Timeout" "timed out" "tb" 3
    (by decide) (by decide) (by decide)

/-! ## Health aggregator (app.py, health_check) -/

/-- The outcome of one dependency ping: a response with a status code,
or any exception from requests.get. -/
inductive PingResult
  | statusCode (code : Nat)
  | connectionError
deriving DecidableEq

/-- The four endpoint environment variables as the health check sees
them (None when not configured). -/
structure HealthEndpoints where
  addUrl : Option String
  subUrl : Option String
  mulUrl : Option String
  divUrl : Option String
deriving DecidableEq

/-- The ping outcome each configured dependency would return. -/
structure PingWorld where
  addPing : PingResult
  subPing : PingResult
  mulPing : PingResult
  divPing : PingResult
deriving DecidableEq

/-- One iteration of the dependency loop in health_check: a configured
endpoint is pinged and classified healthy on 200, unhealthy on any
other status, unreachable on an exception; an unconfigured endpoint is
reported not_configured. -/
def checkDependency (endpoint : Option String) (ping : PingResult) : String :=
  match endpoint with
  | none => "not_configured"
  | some _ =>
    match ping with
    | PingResult.statusCode c => if c = 200 then "healthy" else "unhealthy"
    | PingResult.connectionError => "unreachable"

/-- The response body of GET /health. -/
structure HealthResponse where
  status : String
  service : String
  dependencies : List (String × String)
deriving DecidableEq

/-- health_check in app.py: the initial unknown entries of the
dependency dict are each overwritten by the loop, and the returned
top-level status is the literal healthy. -/
def health_check (eps : HealthEndpoints) (w : PingWorld) : HealthResponse :=
  { status := "healthy", service := "useless-calculator",
    dependencies :=
      [("addition-service", checkDependency eps.addUrl w.addPing),
       ("subtraction-service", checkDependency eps.subUrl w.subPing),
       ("multiplication-service", checkDependency eps.mulUrl w.mulPing),
       ("division-service", checkDependency eps.divUrl w.divPing)] }

/-- The four values a dependency entry may take. -/
def depValueOk (v : String) : Bool :=
  (v == "healthy") || (v == "unhealthy") || (v == "unreachable") || (v == "not_configured")

lemma checkDependency_ok (ep : Option String) (ping : PingResult) :
    depValueOk (checkDependency ep ping) = true := by
  cases ep with
  | none => rfl
  | some u =>
    cases ping with
    | statusCode c =>
      by_cases hc : c = 200 <;> simp [checkDependency, depValueOk, hc]
    | connectionError => rfl

/-- C10.  For every combination of configured endpoints and ping
outcomes, GET /health reports top-level status healthy, and every
dependency entry is one of healthy, unhealthy, unreachable,
not_configured. -/
theorem claim_C10 (eps : HealthEndpoints) (w : PingWorld) :
    (health_check eps w).status = "healthy" ∧
      ((health_check eps w).dependencies.all (fun p => depValueOk p.2)) = true := by
  refine ⟨rfl, ?_⟩
  simp only [health_check, List.all_cons, List.all_nil, Bool.and_true]
  rw [checkDependency_ok, checkDependency_ok, checkDependency_ok, checkDependency_ok]
  rfl

end UselessCalc
